import Mathlib

/-!
Shallow embedding of `src/main.rs` (the "ithaca" payments engine): a command
processor over two maps — a transaction history and a per-client balance
ledger — together with the five balance operations and the argument handling
of `main`.  Definitions follow the source structure and names; amounts are
modelled as exact rationals (`ℚ`), which is the value semantics of the
`rust_decimal::Decimal` type used by the source.
-/

namespace Ithaca

/-- Error kinds, from the `error_chain!` block of `main.rs`. -/
inductive ErrorKind where
  | AmountNotPositive
  | LockedBalance
  | FundsInsufficientForGivenOperation
  | InvalidArgument
  | UnknownTransationType
  | DecimalFormatError
  | TransactionAlreadyExist
  | TransactionAlreadyInDispute
  | ReferenceTransactionTypeIncorrect
  | ReferenceTransactionNotFound
  | ReferenceTransactionIncorrect
  | ReferenceTransactionStateIncorrect
  deriving DecidableEq

/-- `Result<T>` of the source (error_chain), specialised to the error kinds. -/
abbrev Result (α : Type) : Type := Except ErrorKind α

/-- `ClientIdType = u16`; only compared for equality, modelled as `Nat`. -/
abbrev ClientIdType : Type := Nat

/-- `TransactionIdType = u32`; only compared for equality, modelled as `Nat`. -/
abbrev TransactionIdType : Type := Nat

/-- Modelled from the spec: the input `amount` column is "a decimal literal
with at most 4 fractional digits" parsed by the external `rust_decimal`
crate (`Decimal::from_str_radix(n, 10)`), which is outside this repository.
At its interface boundary a literal with `scale` fractional digits denotes
the exact value `mantissa / 10 ^ scale`; `Decimal::scale()` returns the
number of fractional digits as written (e.g. `1000.00000` has scale 5). -/
structure DecLit where
  mantissa : Int
  scale : Nat
  deriving DecidableEq

/-- The exact rational value of a decimal literal. -/
def DecLit.value (d : DecLit) : ℚ := (d.mantissa : ℚ) / (10 : ℚ) ^ d.scale

/-- The `Command` record deserialised from one input row; `amount` is the
(already tokenised) decimal literal, `None` when the column is absent. -/
structure Command where
  type_ : String
  client_id : ClientIdType
  tx_id : TransactionIdType
  amount : Option DecLit
  deriving DecidableEq

/-- The `Transaction` record stored in the transaction history. -/
structure Transaction where
  type_ : String
  client_id : ClientIdType
  amount : Option ℚ
  in_dispute : Bool
  deriving DecidableEq

/-- The per-client `Balance`: available funds, held funds, lock flag. -/
structure Balance where
  avail : ℚ
  held : ℚ
  locked : Bool
  deriving DecidableEq

/-- `ZERO_AMOUNT = Decimal::ZERO`. -/
def ZERO_AMOUNT : ℚ := 0

/-- `Balance::new()`: the lazily created zero balance. -/
def Balance.new : Balance := ⟨ZERO_AMOUNT, ZERO_AMOUNT, false⟩

def DEPOSIT : String := "deposit"
def WITHDRAWAL : String := "withdrawal"
def DISPUTE : String := "dispute"
def RESOLVE : String := "resolve"
def CHARGEBACK : String := "chargeback"

/-- `bail_if_locked`: reject any operation on a locked balance. -/
def bail_if_locked (balance : Balance) : Result Unit :=
  if balance.locked then .error .LockedBalance else .ok ()

/-- `check_amount`: amounts must be strictly positive. -/
def check_amount (amount : ℚ) : Result Unit :=
  if amount ≤ ZERO_AMOUNT then .error .AmountNotPositive else .ok ()

/-- `to_decimal`: parse the literal (the external parse itself cannot fail on
a well-formed literal) and reject a scale above 4 with `DecimalFormatError`. -/
def to_decimal (n : DecLit) : Result ℚ :=
  if n.scale > 4 then .error .DecimalFormatError else .ok n.value

/-- `Balance::deposit`. -/
def Balance.deposit (self : Balance) (amount : ℚ) : Result Balance :=
  match bail_if_locked self with
  | .error e => .error e
  | .ok _ => .ok { self with avail := self.avail + amount }

/-- `Balance::withdrawal`. -/
def Balance.withdrawal (self : Balance) (amount : ℚ) : Result Balance :=
  match bail_if_locked self with
  | .error e => .error e
  | .ok _ =>
    if self.avail < amount then .error .FundsInsufficientForGivenOperation
    else .ok { self with avail := self.avail - amount }

/-- `Balance::dispute`. -/
def Balance.dispute (self : Balance) (amount : ℚ) : Result Balance :=
  match bail_if_locked self with
  | .error e => .error e
  | .ok _ =>
    if self.avail < amount then .error .FundsInsufficientForGivenOperation
    else .ok { self with avail := self.avail - amount, held := self.held + amount }

/-- `Balance::resolve`. -/
def Balance.resolve (self : Balance) (amount : ℚ) : Result Balance :=
  match bail_if_locked self with
  | .error e => .error e
  | .ok _ =>
    if self.held < amount then .error .FundsInsufficientForGivenOperation
    else .ok { self with avail := self.avail + amount, held := self.held - amount }

/-- `Balance::chargeback`. -/
def Balance.chargeback (self : Balance) (amount : ℚ) : Result Balance :=
  match bail_if_locked self with
  | .error e => .error e
  | .ok _ =>
    if self.held < amount then .error .FundsInsufficientForGivenOperation
    else .ok { avail := self.avail, held := self.held - amount, locked := true }

/-- The two shared maps (`TransactionHistoryType` and `BalancesType`),
modelled as lookup functions (the `HashMap`s of the source, observed
through `get`/`contains_key`). -/
structure St where
  transaction_history : TransactionIdType → Option Transaction
  balances : ClientIdType → Option Balance

/-- `TransactionHistory::new()` / `Balances::new()`: both maps empty. -/
def St.empty : St := ⟨fun _ => none, fun _ => none⟩

/-- `HashMap::insert` (also the write performed by `entry(..).or_insert_with`
and `entry(..).and_modify`): point update of the lookup function. -/
def update {α : Type} (m : Nat → Option α) (k : Nat) (v : α) : Nat → Option α :=
  fun q => if q = k then some v else m q

/-- Phase 1 of `do_cmd` ("check the transaction logic first"): the read-only
referential checks against the transaction history, lines 228-264. -/
def check_tx (cmd : Command) (s : St) : Result Unit :=
  if cmd.type_ = DEPOSIT ∨ cmd.type_ = WITHDRAWAL then
    if (s.transaction_history cmd.tx_id).isSome then
      .error .TransactionAlreadyExist
    else .ok ()
  else if cmd.type_ = DISPUTE then
    match s.transaction_history cmd.tx_id with
    | some tx =>
      if tx.type_ ≠ DEPOSIT then .error .ReferenceTransactionTypeIncorrect
      else if tx.client_id ≠ cmd.client_id then .error .ReferenceTransactionIncorrect
      else if tx.in_dispute then .error .TransactionAlreadyInDispute
      else .ok ()
    | none => .error .ReferenceTransactionNotFound
  else if cmd.type_ = RESOLVE ∨ cmd.type_ = CHARGEBACK then
    match s.transaction_history cmd.tx_id with
    | some tx =>
      if ¬tx.in_dispute then .error .ReferenceTransactionStateIncorrect
      else .ok ()
    | none => .error .ReferenceTransactionNotFound
  else .error .UnknownTransationType

/-- Phase 2 of `do_cmd` ("check if amount is available for an operation"):
the scrutinee of the `if let Some(amount) = match ...` at lines 266-277;
dispute-family commands take the amount from the referenced record, deposit
and withdrawal parse the command's literal (propagating its error). -/
def resolve_amount (cmd : Command) (s : St) : Result (Option ℚ) :=
  if cmd.type_ = DISPUTE ∨ cmd.type_ = RESOLVE ∨ cmd.type_ = CHARGEBACK then
    .ok ((s.transaction_history cmd.tx_id).bind Transaction.amount)
  else
    match cmd.amount with
    | some q =>
      match to_decimal q with
      | .error e => .error e
      | .ok d => .ok (some d)
    | none => .ok none

/-- The dispatch over the five balance operations at lines 283-290 of
`do_cmd` (`check_tx` has already restricted `type_` to the five kinds, so
the final branch is the `CHARGEBACK` arm). -/
def apply_balance (type_ : String) (balance : Balance) (amount : ℚ) : Result Balance :=
  if type_ = DEPOSIT then balance.deposit amount
  else if type_ = WITHDRAWAL then balance.withdrawal amount
  else if type_ = DISPUTE then balance.dispute amount
  else if type_ = RESOLVE then balance.resolve amount
  else balance.chargeback amount

/-- The history write of `do_cmd` (lines 293-318): dispute marks the record
disputed, resolve/chargeback clear the flag (`and_modify` is a no-op on an
absent key), deposit/withdrawal insert a fresh record. -/
def commit_history (cmd : Command) (amount : ℚ)
    (h : TransactionIdType → Option Transaction) : TransactionIdType → Option Transaction :=
  if cmd.type_ = DISPUTE then
    match h cmd.tx_id with
    | some tx => update h cmd.tx_id { tx with in_dispute := true }
    | none => h
  else if cmd.type_ = RESOLVE ∨ cmd.type_ = CHARGEBACK then
    match h cmd.tx_id with
    | some tx => update h cmd.tx_id { tx with in_dispute := false }
    | none => h
  else
    update h cmd.tx_id ⟨cmd.type_, cmd.client_id, some amount, false⟩

/-- `do_cmd`: process one command against the two stores.  Returns the
command's `Result<()>` together with the state of the two maps afterwards
(errors can still leave a mutation: `entry(client_id).or_insert_with(
Balance::new)` has already inserted the zero balance when the balance
operation itself fails). -/
def do_cmd (cmd : Command) (s : St) : Result Unit × St :=
  match check_tx cmd s with
  | .error e => (.error e, s)
  | .ok _ =>
    match resolve_amount cmd s with
    | .error e => (.error e, s)
    | .ok none => (.error .UnknownTransationType, s)
    | .ok (some amount) =>
      match check_amount amount with
      | .error e => (.error e, s)
      | .ok _ =>
        match apply_balance cmd.type_ ((s.balances cmd.client_id).getD Balance.new) amount with
        | .error e =>
          (.error e, ⟨s.transaction_history,
            update s.balances cmd.client_id ((s.balances cmd.client_id).getD Balance.new)⟩)
        | .ok new_balance =>
          (.ok (), ⟨commit_history cmd amount s.transaction_history,
            update (update s.balances cmd.client_id ((s.balances cmd.client_id).getD Balance.new))
              cmd.client_id new_balance⟩)

/-- The consumer loop of `main`: commands are processed one at a time;
a failed command is logged and the loop continues with the state it left. -/
def run (cmds : List Command) (s : St) : St :=
  cmds.foldl (fun t c => (do_cmd c t).2) s

/-- A concrete four-command setup: client 1 deposits and disputes transaction 1,
client 2 deposits and disputes transaction 2 (both for amount 100). -/
def mismatchSetup : St :=
  run [⟨DEPOSIT, 1, 1, some ⟨100, 0⟩⟩, ⟨DISPUTE, 1, 1, none⟩,
       ⟨DEPOSIT, 2, 2, some ⟨100, 0⟩⟩, ⟨DISPUTE, 2, 2, none⟩] St.empty

/-- Outcome of the argument handling in `main` (lines 329-336). -/
inductive MainOutcome where
  | usageExit
  | panicIndexOutOfBounds
  | openInput (path : String)
  deriving DecidableEq

/-- `exit(-1)` after the usage message: the process status is -1 (non-zero). -/
def USAGE_EXIT_CODE : Int := -1

/-- The argument handling of `main`: `args` includes the program name at
index 0.  With more than two entries the usage message is printed and the
process exits with `USAGE_EXIT_CODE`; otherwise the producer task indexes
`args[1]`, which panics when no positional argument was given. -/
def main_args (args : List String) : MainOutcome :=
  if args.length > 2 then .usageExit
  else
    match args[1]? with
    | some p => .openInput p
    | none => .panicIndexOutOfBounds


/-- All balances in the ledger have non-negative available and held funds. -/
def BalancedState (s : St) : Prop :=
  ∀ c b, s.balances c = some b → 0 ≤ b.avail ∧ 0 ≤ b.held


@[simp] theorem deposit_ne_withdrawal : DEPOSIT ≠ WITHDRAWAL := by simp [DEPOSIT, WITHDRAWAL]

@[simp] theorem deposit_ne_dispute : DEPOSIT ≠ DISPUTE := by simp [DEPOSIT, DISPUTE]

@[simp] theorem deposit_ne_resolve : DEPOSIT ≠ RESOLVE := by simp [DEPOSIT, RESOLVE]

@[simp] theorem deposit_ne_chargeback : DEPOSIT ≠ CHARGEBACK := by simp [DEPOSIT, CHARGEBACK]

@[simp] theorem withdrawal_ne_deposit : WITHDRAWAL ≠ DEPOSIT := by simp [DEPOSIT, WITHDRAWAL]

@[simp] theorem withdrawal_ne_dispute : WITHDRAWAL ≠ DISPUTE := by simp [WITHDRAWAL, DISPUTE]

@[simp] theorem withdrawal_ne_resolve : WITHDRAWAL ≠ RESOLVE := by simp [WITHDRAWAL, RESOLVE]

@[simp] theorem withdrawal_ne_chargeback : WITHDRAWAL ≠ CHARGEBACK := by
  simp [WITHDRAWAL, CHARGEBACK]

@[simp] theorem dispute_ne_deposit : DISPUTE ≠ DEPOSIT := by simp [DEPOSIT, DISPUTE]

@[simp] theorem dispute_ne_withdrawal : DISPUTE ≠ WITHDRAWAL := by simp [WITHDRAWAL, DISPUTE]

@[simp] theorem dispute_ne_resolve : DISPUTE ≠ RESOLVE := by simp [DISPUTE, RESOLVE]

@[simp] theorem dispute_ne_chargeback : DISPUTE ≠ CHARGEBACK := by simp [DISPUTE, CHARGEBACK]

@[simp] theorem resolve_ne_deposit : RESOLVE ≠ DEPOSIT := by simp [DEPOSIT, RESOLVE]

@[simp] theorem resolve_ne_withdrawal : RESOLVE ≠ WITHDRAWAL := by simp [WITHDRAWAL, RESOLVE]

@[simp] theorem resolve_ne_dispute : RESOLVE ≠ DISPUTE := by simp [DISPUTE, RESOLVE]

@[simp] theorem resolve_ne_chargeback : RESOLVE ≠ CHARGEBACK := by simp [RESOLVE, CHARGEBACK]

@[simp] theorem chargeback_ne_deposit : CHARGEBACK ≠ DEPOSIT := by simp [DEPOSIT, CHARGEBACK]

@[simp] theorem chargeback_ne_withdrawal : CHARGEBACK ≠ WITHDRAWAL := by
  simp [WITHDRAWAL, CHARGEBACK]

@[simp] theorem chargeback_ne_dispute : CHARGEBACK ≠ DISPUTE := by simp [DISPUTE, CHARGEBACK]

@[simp] theorem chargeback_ne_resolve : CHARGEBACK ≠ RESOLVE := by simp [RESOLVE, CHARGEBACK]

/-- Closed form of `Balance::deposit`. -/
theorem deposit_eq (b : Balance) (a : ℚ) :
    b.deposit a = if b.locked then .error .LockedBalance
      else .ok ⟨b.avail + a, b.held, b.locked⟩ := by
  unfold Balance.deposit bail_if_locked
  by_cases hl : b.locked <;> simp [hl]

/-- Closed form of `Balance::withdrawal`. -/
theorem withdrawal_eq (b : Balance) (a : ℚ) :
    b.withdrawal a = if b.locked then .error .LockedBalance
      else if b.avail < a then .error .FundsInsufficientForGivenOperation
      else .ok ⟨b.avail - a, b.held, b.locked⟩ := by
  unfold Balance.withdrawal bail_if_locked
  by_cases hl : b.locked <;> simp [hl]

/-- Closed form of `Balance::dispute`. -/
theorem dispute_eq (b : Balance) (a : ℚ) :
    b.dispute a = if b.locked then .error .LockedBalance
      else if b.avail < a then .error .FundsInsufficientForGivenOperation
      else .ok ⟨b.avail - a, b.held + a, b.locked⟩ := by
  unfold Balance.dispute bail_if_locked
  by_cases hl : b.locked <;> simp [hl]

/-- Closed form of `Balance::resolve`. -/
theorem resolve_eq (b : Balance) (a : ℚ) :
    b.resolve a = if b.locked then .error .LockedBalance
      else if b.held < a then .error .FundsInsufficientForGivenOperation
      else .ok ⟨b.avail + a, b.held - a, b.locked⟩ := by
  unfold Balance.resolve bail_if_locked
  by_cases hl : b.locked <;> simp [hl]

/-- Closed form of `Balance::chargeback`. -/
theorem chargeback_eq (b : Balance) (a : ℚ) :
    b.chargeback a = if b.locked then .error .LockedBalance
      else if b.held < a then .error .FundsInsufficientForGivenOperation
      else .ok ⟨b.avail, b.held - a, true⟩ := by
  unfold Balance.chargeback bail_if_locked
  by_cases hl : b.locked <;> simp [hl]

/-- An amount that passes `check_amount` is strictly positive. -/
theorem check_amount_pos {a : ℚ} {u : Unit} (h : check_amount a = .ok u) : 0 < a := by
  by_contra hcon
  push_neg at hcon
  simp [check_amount, ZERO_AMOUNT, hcon] at h

/-- Every balance operation on a locked balance fails with `LockedBalance`. -/
theorem apply_balance_locked (t : String) {b : Balance} (a : ℚ) (h : b.locked = true) :
    apply_balance t b a = .error .LockedBalance := by
  unfold apply_balance
  simp [deposit_eq, withdrawal_eq, dispute_eq, resolve_eq, chargeback_eq, h]

/-- A successful balance operation with a positive amount preserves
non-negativity of `avail` and `held`. -/
theorem apply_balance_nonneg {t : String} {b b2 : Balance} {a : ℚ}
    (h : apply_balance t b a = .ok b2) (ha : 0 < a)
    (h1 : 0 ≤ b.avail) (h2 : 0 ≤ b.held) : 0 ≤ b2.avail ∧ 0 ≤ b2.held := by
  unfold apply_balance at h
  split_ifs at h
  · rw [deposit_eq] at h
    split_ifs at h with hl
    simp only [Except.ok.injEq] at h
    subst h
    exact ⟨by simp; linarith, by simpa using h2⟩
  · rw [withdrawal_eq] at h
    split_ifs at h with hl hcmp
    simp only [Except.ok.injEq] at h
    subst h
    exact ⟨by simp; linarith, by simpa using h2⟩
  · rw [dispute_eq] at h
    split_ifs at h with hl hcmp
    simp only [Except.ok.injEq] at h
    subst h
    exact ⟨by simp; linarith, by simp; linarith⟩
  · rw [resolve_eq] at h
    split_ifs at h with hl hcmp
    simp only [Except.ok.injEq] at h
    subst h
    exact ⟨by simp; linarith, by simp; linarith⟩
  · rw [chargeback_eq] at h
    split_ifs at h with hl hcmp
    simp only [Except.ok.injEq] at h
    subst h
    exact ⟨by simpa using h1, by simp; linarith⟩

/-- The balance the processor starts from (`entry(..).or_insert_with(Balance::new)`)
is non-negative whenever the ledger is. -/
theorem getD_nonneg {s : St} (h : BalancedState s) (c : ClientIdType) :
    0 ≤ ((s.balances c).getD Balance.new).avail ∧
    0 ≤ ((s.balances c).getD Balance.new).held := by
  cases hc : s.balances c with
  | none => simp [Balance.new, ZERO_AMOUNT]
  | some b0 => simpa using h c b0 hc

/-- Processing any single command — succeeding or failing — preserves
non-negativity of every ledger balance. -/
theorem do_cmd_preserves_nonneg (cmd : Command) (s : St) (h : BalancedState s) :
    BalancedState (do_cmd cmd s).2 := by
  unfold do_cmd
  split
  · exact h
  split
  · exact h
  · exact h
  split
  · exact h
  rename_i amount hamt x0 u2 hca
  split
  · rename_i e hab
    have hbal := getD_nonneg h cmd.client_id
    intro c b hcb
    simp only [update] at hcb
    by_cases hcc : c = cmd.client_id
    · rw [if_pos hcc] at hcb
      obtain rfl := Option.some.inj hcb
      exact hbal
    · rw [if_neg hcc] at hcb
      exact h c b hcb
  · rename_i nb hab
    have hpos : 0 < amount := check_amount_pos hca
    have hbal := getD_nonneg h cmd.client_id
    have hnb := apply_balance_nonneg hab hpos hbal.1 hbal.2
    intro c b hcb
    simp only [update] at hcb
    by_cases hcc : c = cmd.client_id
    · rw [if_pos hcc] at hcb
      obtain rfl := Option.some.inj hcb
      exact hnb
    · rw [if_neg hcc, if_neg hcc] at hcb
      exact h c b hcb

/-- Non-negativity of every balance is preserved by any run of commands. -/
theorem run_preserves_nonneg (cmds : List Command) (s : St) (h : BalancedState s) :
    BalancedState (run cmds s) := by
  induction cmds generalizing s with
  | nil => exact h
  | cons c cs ih => exact ih _ (do_cmd_preserves_nonneg c s h)

/-- Every balance operation on a locked balance fails, so `apply_balance`
can only succeed from an unlocked balance. -/
theorem apply_balance_ok_unlocked {t : String} {b nb : Balance} {a : ℚ}
    (h : apply_balance t b a = .ok nb) : b.locked = false := by
  by_cases hl : b.locked = true
  · rw [apply_balance_locked t a hl] at h
    cases h
  · simpa using hl

/-- Claim C3: for every unlocked balance and positive amount the five balance
operations follow the §4.1 table — deposit adds the amount to `avail`
unconditionally; withdrawal and dispute require `amount ≤ avail` and
otherwise fail with the insufficient-funds kind, withdrawal subtracting
from `avail` and dispute moving the amount from `avail` to `held`; resolve
and chargeback require `amount ≤ held` and otherwise fail likewise, resolve
moving the amount from `held` back to `avail` and chargeback subtracting it
from `held` (leaving `avail` unchanged) and setting `locked`; and on a
locked balance every one of the five operations fails with the
locked-account kind (`LockedBalance` in the source) before any other
check. -/
theorem balance_operations_table (b : Balance) (a : ℚ)
    (hl : b.locked = false) (ha : 0 < a) :
    (b.deposit a = .ok ⟨b.avail + a, b.held, b.locked⟩) ∧
    (a ≤ b.avail → b.withdrawal a = .ok ⟨b.avail - a, b.held, b.locked⟩) ∧
    (b.avail < a → b.withdrawal a = .error .FundsInsufficientForGivenOperation) ∧
    (a ≤ b.avail → b.dispute a = .ok ⟨b.avail - a, b.held + a, b.locked⟩) ∧
    (b.avail < a → b.dispute a = .error .FundsInsufficientForGivenOperation) ∧
    (a ≤ b.held → b.resolve a = .ok ⟨b.avail + a, b.held - a, b.locked⟩) ∧
    (b.held < a → b.resolve a = .error .FundsInsufficientForGivenOperation) ∧
    (a ≤ b.held → b.chargeback a = .ok ⟨b.avail, b.held - a, true⟩) ∧
    (b.held < a → b.chargeback a = .error .FundsInsufficientForGivenOperation) ∧
    (∀ b2 : Balance, b2.locked = true →
      b2.deposit a = .error .LockedBalance ∧
      b2.withdrawal a = .error .LockedBalance ∧
      b2.dispute a = .error .LockedBalance ∧
      b2.resolve a = .error .LockedBalance ∧
      b2.chargeback a = .error .LockedBalance) := by
  refine ⟨?_, ?_, ?_, ?_, ?_, ?_, ?_, ?_, ?_, ?_⟩
  · simp [deposit_eq, hl]
  · intro hle
    simp [withdrawal_eq, hl, not_lt.mpr hle]
  · intro hlt
    simp [withdrawal_eq, hl, hlt]
  · intro hle
    simp [dispute_eq, hl, not_lt.mpr hle]
  · intro hlt
    simp [dispute_eq, hl, hlt]
  · intro hle
    simp [resolve_eq, hl, not_lt.mpr hle]
  · intro hlt
    simp [resolve_eq, hl, hlt]
  · intro hle
    simp [chargeback_eq, hl, not_lt.mpr hle]
  · intro hlt
    simp [chargeback_eq, hl, hlt]
  · intro b2 h2
    simp [deposit_eq, withdrawal_eq, dispute_eq, resolve_eq, chargeback_eq, h2]

/-- Claim C3 witness: the table applied at the unlocked balance (5, 3) with
amount 2. -/
theorem balance_operations_table_witness :
    ((Balance.mk 5 3 false).locked = false ∧ (0 : ℚ) < 2) ∧
    (Balance.mk 5 3 false).deposit 2 = .ok ⟨5 + 2, 3, false⟩ :=
  ⟨⟨rfl, by norm_num⟩, (balance_operations_table ⟨5, 3, false⟩ 2 rfl (by norm_num)).1⟩

/-- Claim C5: once a client's balance is locked every balance operation on it
fails with the locked-account error, and processing any further command never
produces a state in which that client's `locked` flag has returned to
false. -/
theorem locked_account_monotone (b : Balance) (a : ℚ) (cmd : Command) (s : St)
    (c : ClientIdType) (hb : b.locked = true) :
    (b.deposit a = .error .LockedBalance ∧
     b.withdrawal a = .error .LockedBalance ∧
     b.dispute a = .error .LockedBalance ∧
     b.resolve a = .error .LockedBalance ∧
     b.chargeback a = .error .LockedBalance) ∧
    (s.balances c = some b →
      ∃ b2, (do_cmd cmd s).2.balances c = some b2 ∧ b2.locked = true) := by
  constructor
  · simp [deposit_eq, withdrawal_eq, dispute_eq, resolve_eq, chargeback_eq, hb]
  · intro hcb
    unfold do_cmd
    split
    · exact ⟨b, hcb, hb⟩
    split
    · exact ⟨b, hcb, hb⟩
    · exact ⟨b, hcb, hb⟩
    split
    · exact ⟨b, hcb, hb⟩
    split
    · by_cases hcc : c = cmd.client_id
      · subst hcc
        exact ⟨(s.balances cmd.client_id).getD Balance.new, by simp [update],
          by simp [hcb, hb]⟩
      · exact ⟨b, by simp [update, hcc, hcb], hb⟩
    · rename_i nb hab
      by_cases hcc : c = cmd.client_id
      · subst hcc
        rw [hcb] at hab
        simp only [Option.getD_some] at hab
        rw [apply_balance_locked _ _ hb] at hab
        cases hab
      · exact ⟨b, by simp [update, hcc, hcb], hb⟩

/-- Claim C5 witness: the locked balance (0, 0, locked) rejects a deposit with
the locked-account error, and a command for another client leaves it locked. -/
theorem locked_account_monotone_witness :
    (Balance.mk 0 0 true).locked = true ∧
    (Balance.mk 0 0 true).deposit 1 = .error .LockedBalance :=
  ⟨rfl, (locked_account_monotone ⟨0, 0, true⟩ 1 ⟨DEPOSIT, 2, 9, none⟩ St.empty 3 rfl).1.1⟩

/-- Claim C6: a dispute referencing an absent transaction fails
`ReferenceTransactionNotFound`; referencing a withdrawal fails
`ReferenceTransactionTypeIncorrect`; referencing a deposit of another client
fails `ReferenceTransactionIncorrect`; referencing an already-disputed
deposit of the same client fails `TransactionAlreadyInDispute` — and in
every case the whole state (both maps) is exactly unchanged. -/
theorem dispute_referential_integrity (cmd : Command) (s : St)
    (hty : cmd.type_ = DISPUTE) :
    (s.transaction_history cmd.tx_id = none →
      do_cmd cmd s = (.error .ReferenceTransactionNotFound, s)) ∧
    (∀ tx, s.transaction_history cmd.tx_id = some tx → tx.type_ = WITHDRAWAL →
      do_cmd cmd s = (.error .ReferenceTransactionTypeIncorrect, s)) ∧
    (∀ tx, s.transaction_history cmd.tx_id = some tx → tx.type_ = DEPOSIT →
      tx.client_id ≠ cmd.client_id →
      do_cmd cmd s = (.error .ReferenceTransactionIncorrect, s)) ∧
    (∀ tx, s.transaction_history cmd.tx_id = some tx → tx.type_ = DEPOSIT →
      tx.client_id = cmd.client_id → tx.in_dispute = true →
      do_cmd cmd s = (.error .TransactionAlreadyInDispute, s)) := by
  refine ⟨?_, ?_, ?_, ?_⟩
  · intro hn
    have hchk : check_tx cmd s = .error .ReferenceTransactionNotFound := by
      simp [check_tx, hty, hn]
    unfold do_cmd
    rw [hchk]
  · intro tx htx hw
    have hchk : check_tx cmd s = .error .ReferenceTransactionTypeIncorrect := by
      simp [check_tx, hty, htx, hw]
    unfold do_cmd
    rw [hchk]
  · intro tx htx hd hne
    have hchk : check_tx cmd s = .error .ReferenceTransactionIncorrect := by
      simp [check_tx, hty, htx, hd, hne]
    unfold do_cmd
    rw [hchk]
  · intro tx htx hd hcl hdisp
    have hchk : check_tx cmd s = .error .TransactionAlreadyInDispute := by
      simp [check_tx, hty, htx, hd, hcl, hdisp]
    unfold do_cmd
    rw [hchk]

/-- Claim C6 witness: disputing the absent transaction 5 on the empty state
fails `ReferenceTransactionNotFound` and leaves the state unchanged. -/
theorem dispute_referential_integrity_witness :
    (Command.mk DISPUTE 1 5 none).type_ = DISPUTE ∧
    St.empty.transaction_history 5 = none ∧
    do_cmd ⟨DISPUTE, 1, 5, none⟩ St.empty =
      (.error .ReferenceTransactionNotFound, St.empty) :=
  ⟨rfl, rfl, (dispute_referential_integrity ⟨DISPUTE, 1, 5, none⟩ St.empty rfl).1 rfl⟩

/-- Claim C7: an amount literal with at most 4 fractional digits parses to its
exact decimal value, while a deposit or withdrawal (of a fresh transaction id)
whose literal has 5 or more fractional digits fails with `DecimalFormatError`
and leaves both maps exactly unchanged. -/
theorem precision_boundary (cmd : Command) (s : St) (lit : DecLit)
    (hamt : cmd.amount = some lit)
    (hty : cmd.type_ = DEPOSIT ∨ cmd.type_ = WITHDRAWAL)
    (hfresh : s.transaction_history cmd.tx_id = none) :
    (lit.scale ≤ 4 → to_decimal lit = .ok lit.value) ∧
    (5 ≤ lit.scale → do_cmd cmd s = (.error .DecimalFormatError, s)) := by
  constructor
  · intro hs
    simp [to_decimal, Nat.not_lt.mpr hs]
  · intro hs
    have hchk : check_tx cmd s = .ok () := by
      rcases hty with h1 | h1 <;> simp [check_tx, h1, hfresh]
    have h4 : 4 < lit.scale := by omega
    have htd : to_decimal lit = .error .DecimalFormatError := by
      simp [to_decimal, h4]
    have hra : resolve_amount cmd s = .error .DecimalFormatError := by
      rcases hty with h1 | h1 <;> simp [resolve_amount, h1, hamt, htd]
    unfold do_cmd
    rw [hchk, hra]

/-- Claim C7 witness: the 4-digit literal 1000.0001 parses exactly, and a
deposit of the 5-digit literal 1000.00001 fails `DecimalFormatError` leaving
the empty state unchanged. -/
theorem precision_boundary_witness :
    ((Command.mk DEPOSIT 1 1 (some ⟨10000001, 4⟩)).amount = some ⟨10000001, 4⟩ ∧
      (Command.mk DEPOSIT 1 1 (some ⟨10000001, 4⟩)).type_ = DEPOSIT ∧
      St.empty.transaction_history 1 = none ∧ (4 : ℕ) ≤ 4 ∧
      to_decimal ⟨10000001, 4⟩ = .ok (DecLit.value ⟨10000001, 4⟩)) ∧
    ((Command.mk DEPOSIT 1 2 (some ⟨100000001, 5⟩)).amount = some ⟨100000001, 5⟩ ∧
      (5 : ℕ) ≤ (5 : ℕ) ∧
      do_cmd ⟨DEPOSIT, 1, 2, some ⟨100000001, 5⟩⟩ St.empty =
        (.error .DecimalFormatError, St.empty)) :=
  ⟨⟨rfl, rfl, rfl, by norm_num,
    (precision_boundary ⟨DEPOSIT, 1, 1, some ⟨10000001, 4⟩⟩ St.empty ⟨10000001, 4⟩
      rfl (Or.inl rfl) rfl).1 (by norm_num)⟩,
   ⟨rfl, by norm_num,
    (precision_boundary ⟨DEPOSIT, 1, 2, some ⟨100000001, 5⟩⟩ St.empty ⟨100000001, 5⟩
      rfl (Or.inl rfl) rfl).2 (by norm_num)⟩⟩

/-- Claim C8: resolve undoes dispute — from any unlocked balance with
sufficient available funds (and the data-model invariant `0 ≤ held` of §3),
`dispute a` followed by `resolve a` returns the original balance; and the
Scenario A run leaves client 1 with available 1000, held 0, unlocked. -/
theorem resolve_undoes_dispute (b : Balance) (a : ℚ)
    (hl : b.locked = false) (ha : 0 < a) (hav : a ≤ b.avail) (hhe : 0 ≤ b.held) :
    ((b.dispute a).bind (fun b1 => b1.resolve a) = .ok b) ∧
    ((run [⟨DEPOSIT, 1, 1, some ⟨1000, 0⟩⟩, ⟨WITHDRAWAL, 1, 2, some ⟨500, 0⟩⟩,
           ⟨DEPOSIT, 1, 3, some ⟨500, 0⟩⟩, ⟨DISPUTE, 1, 3, none⟩,
           ⟨RESOLVE, 1, 3, none⟩] St.empty).balances 1 = some ⟨1000, 0, false⟩) := by
  constructor
  · obtain ⟨av, he, lo⟩ := b
    have hl2 : lo = false := hl
    subst hl2
    have hav2 : a ≤ av := hav
    have hhe2 : (0 : ℚ) ≤ he := hhe
    have h1 : ¬ av < a := not_lt.mpr hav2
    have h2 : ¬ he + a < a := by push_neg; linarith
    simp only [dispute_eq, resolve_eq, Balance.avail, Balance.held, Balance.locked,
      Bool.false_eq_true, if_false, h1, h2, Except.bind]
    simp only [Except.ok.injEq, Balance.mk.injEq]
    exact ⟨by ring, by ring, trivial⟩
  · norm_num [run, do_cmd, check_tx, resolve_amount, check_amount, apply_balance,
      commit_history, to_decimal, DecLit.value, Balance.deposit, Balance.withdrawal,
      Balance.dispute, Balance.resolve, Balance.chargeback, bail_if_locked, Balance.new,
      ZERO_AMOUNT, St.empty, update]

/-- Claim C8 witness: dispute then resolve of amount 4 returns the balance
(10, 2, unlocked) unchanged. -/
theorem resolve_undoes_dispute_witness :
    ((Balance.mk 10 2 false).locked = false ∧ (0 : ℚ) < 4 ∧
      (4 : ℚ) ≤ (Balance.mk 10 2 false).avail ∧ (0 : ℚ) ≤ (Balance.mk 10 2 false).held) ∧
    ((Balance.mk 10 2 false).dispute 4).bind (fun b1 => b1.resolve 4) =
      .ok (Balance.mk 10 2 false) :=
  ⟨⟨rfl, by norm_num, by norm_num, by norm_num⟩,
   (resolve_undoes_dispute ⟨10, 2, false⟩ 4 rfl (by norm_num) (by norm_num)
     (by norm_num)).1⟩

/-- Claim C9: a deposit or withdrawal of a fresh transaction id whose amount
column is absent fails with `UnknownTransationType` — the same error kind an
unrecognised command kind gets — and leaves both maps exactly unchanged. -/
theorem missing_amount_unknown_transaction_type (cmd : Command) (s : St)
    (hty : cmd.type_ = DEPOSIT ∨ cmd.type_ = WITHDRAWAL)
    (hfresh : s.transaction_history cmd.tx_id = none)
    (hnone : cmd.amount = none) :
    do_cmd cmd s = (.error .UnknownTransationType, s) ∧
    (∀ c2 : Command, c2.type_ ≠ DEPOSIT → c2.type_ ≠ WITHDRAWAL → c2.type_ ≠ DISPUTE →
      c2.type_ ≠ RESOLVE → c2.type_ ≠ CHARGEBACK →
      do_cmd c2 s = (.error .UnknownTransationType, s)) := by
  constructor
  · have hchk : check_tx cmd s = .ok () := by
      rcases hty with h1 | h1 <;> simp [check_tx, h1, hfresh]
    have hra : resolve_amount cmd s = .ok none := by
      rcases hty with h1 | h1 <;> simp [resolve_amount, h1, hnone]
    unfold do_cmd
    rw [hchk, hra]
  · intro c2 h1 h2 h3 h4 h5
    have hchk : check_tx c2 s = .error .UnknownTransationType := by
      simp [check_tx, h1, h2, h3, h4, h5]
    unfold do_cmd
    rw [hchk]

/-- Claim C9 witness: a withdrawal of fresh transaction 1 with no amount
column fails `UnknownTransationType` on the empty state, unchanged. -/
theorem missing_amount_unknown_transaction_type_witness :
    ((Command.mk WITHDRAWAL 1 1 none).type_ = WITHDRAWAL ∧
      St.empty.transaction_history 1 = none ∧
      (Command.mk WITHDRAWAL 1 1 none).amount = none) ∧
    do_cmd ⟨WITHDRAWAL, 1, 1, none⟩ St.empty = (.error .UnknownTransationType, St.empty) :=
  ⟨⟨rfl, rfl, rfl⟩,
   (missing_amount_unknown_transaction_type ⟨WITHDRAWAL, 1, 1, none⟩ St.empty
     (Or.inr rfl) rfl rfl).1⟩

/-- Claim C1 counterexample: a withdrawal by the brand-new client 7 fails with
insufficient funds, yet the failed command has inserted client 7 (with the
zero balance) into the Balance Ledger map — `entry(client_id)
.or_insert_with(Balance::new)` runs before the balance operation fails, so
the set of client ids in the ledger is not as it was. -/
theorem error_command_creates_client :
    (do_cmd ⟨WITHDRAWAL, 7, 1, some ⟨5, 0⟩⟩ St.empty).1 =
      .error .FundsInsufficientForGivenOperation ∧
    St.empty.balances 7 = none ∧
    (do_cmd ⟨WITHDRAWAL, 7, 1, some ⟨5, 0⟩⟩ St.empty).2.balances 7 = some Balance.new := by
  refine ⟨?_, rfl, ?_⟩ <;>
    norm_num [do_cmd, check_tx, resolve_amount, check_amount, apply_balance, to_decimal,
      DecLit.value, Balance.withdrawal, bail_if_locked, Balance.new, ZERO_AMOUNT, St.empty,
      update]

/-- Claim C1 (amended): a command that returns an error commits no write to
the Transaction History map and changes no balance already present in the
Balance Ledger; the only possible mutation is the lazy creation of the zero
balance for the command's own client id (when the balance operation itself
is what failed). -/
theorem do_cmd_error_effects (cmd : Command) (s : St) (e : ErrorKind)
    (h : (do_cmd cmd s).1 = .error e) :
    (∀ t, (do_cmd cmd s).2.transaction_history t = s.transaction_history t) ∧
    (∀ c b, s.balances c = some b → (do_cmd cmd s).2.balances c = some b) ∧
    (∀ c, (do_cmd cmd s).2.balances c ≠ s.balances c →
      c = cmd.client_id ∧ s.balances c = none ∧
      (do_cmd cmd s).2.balances c = some Balance.new) := by
  unfold do_cmd at h ⊢
  revert h
  split
  · intro h
    exact ⟨fun t => rfl, fun c b hcb => hcb, fun c hne => absurd rfl hne⟩
  split
  · intro h
    exact ⟨fun t => rfl, fun c b hcb => hcb, fun c hne => absurd rfl hne⟩
  · intro h
    exact ⟨fun t => rfl, fun c b hcb => hcb, fun c hne => absurd rfl hne⟩
  split
  · intro h
    exact ⟨fun t => rfl, fun c b hcb => hcb, fun c hne => absurd rfl hne⟩
  split
  · intro h
    refine ⟨fun t => rfl, ?_, ?_⟩
    · intro c b hcb
      by_cases hcc : c = cmd.client_id
      · subst hcc
        simp [update, hcb]
      · simp [update, hcc, hcb]
    · intro c hne
      by_cases hcc : c = cmd.client_id
      · subst hcc
        cases hsb : s.balances cmd.client_id with
        | none => exact ⟨rfl, rfl, by simp [update, hsb, Balance.new]⟩
        | some b0 => exact absurd (by simp [update, hsb]) hne
      · exact absurd (by simp [update, hcc]) hne
  · intro h
    simp at h

/-- Claim C1 (amended) witness: the not-found dispute error on the empty
state leaves the transaction history pointwise unchanged. -/
theorem do_cmd_error_effects_witness :
    (do_cmd ⟨DISPUTE, 3, 9, none⟩ St.empty).1 = .error .ReferenceTransactionNotFound ∧
    (do_cmd ⟨DISPUTE, 3, 9, none⟩ St.empty).2.transaction_history 9 =
      St.empty.transaction_history 9 :=
  ⟨by simp [do_cmd, check_tx, St.empty],
   (do_cmd_error_effects ⟨DISPUTE, 3, 9, none⟩ St.empty .ReferenceTransactionNotFound
     (by simp [do_cmd, check_tx, St.empty])).1 9⟩

/-- Claim C2 counterexample: after `mismatchSetup`, transaction 1 is a deposit
owned by client 1 and in dispute; the command `resolve(client 2, tx 1)` has a
client id different from the record's owning client, yet it is not rejected —
it succeeds and moves client 2's held 100 to available. -/
theorem mismatched_client_resolve_succeeds :
    mismatchSetup.transaction_history 1 = some ⟨DEPOSIT, 1, some 100, true⟩ ∧
    mismatchSetup.balances 2 = some ⟨0, 100, false⟩ ∧
    (do_cmd ⟨RESOLVE, 2, 1, none⟩ mismatchSetup).1 = .ok () ∧
    (do_cmd ⟨RESOLVE, 2, 1, none⟩ mismatchSetup).2.balances 2 = some ⟨100, 0, false⟩ := by
  refine ⟨?_, ?_, ?_, ?_⟩ <;>
    norm_num [mismatchSetup, run, do_cmd, check_tx, resolve_amount, check_amount,
      apply_balance, commit_history, to_decimal, DecLit.value, Balance.deposit,
      Balance.withdrawal, Balance.dispute, Balance.resolve, Balance.chargeback,
      bail_if_locked, Balance.new, ZERO_AMOUNT, St.empty, update]

/-- Claim C2 (amended): the referential validation of a resolve or chargeback
command whose referenced record exists checks only the record's `in_dispute`
flag — the record's `owning_client` and kind are not consulted, so a
mismatched client is not a ground for rejection. -/
theorem resolve_chargeback_only_check_dispute_state (cmd : Command) (s : St)
    (tx : Transaction)
    (hty : cmd.type_ = RESOLVE ∨ cmd.type_ = CHARGEBACK)
    (hfound : s.transaction_history cmd.tx_id = some tx) :
    check_tx cmd s =
      if tx.in_dispute then .ok () else .error .ReferenceTransactionStateIncorrect := by
  rcases hty with h1 | h1 <;>
    cases hd : tx.in_dispute <;>
    simp [check_tx, h1, hfound, hd]

/-- Claim C2 (amended) witness: a resolve by client 2 of an in-dispute deposit
record owned by client 1 passes referential validation. -/
theorem resolve_chargeback_only_check_dispute_state_witness :
    ((Command.mk RESOLVE 2 1 none).type_ = RESOLVE ∨
      (Command.mk RESOLVE 2 1 none).type_ = CHARGEBACK) ∧
    (St.mk (update (fun _ => none) 1 ⟨DEPOSIT, 1, some 100, true⟩)
      (fun _ => none)).transaction_history 1 = some ⟨DEPOSIT, 1, some 100, true⟩ ∧
    check_tx ⟨RESOLVE, 2, 1, none⟩
      (St.mk (update (fun _ => none) 1 ⟨DEPOSIT, 1, some 100, true⟩) (fun _ => none)) =
      if (Transaction.mk DEPOSIT 1 (some 100) true).in_dispute then .ok ()
      else .error .ReferenceTransactionStateIncorrect :=
  ⟨Or.inl rfl, by simp [update],
   resolve_chargeback_only_check_dispute_state ⟨RESOLVE, 2, 1, none⟩
     (St.mk (update (fun _ => none) 1 ⟨DEPOSIT, 1, some 100, true⟩) (fun _ => none))
     ⟨DEPOSIT, 1, some 100, true⟩ (Or.inl rfl) (by simp [update])⟩

/-- Claim C4: starting from the empty stores, after any sequence of commands
every balance present in the Balance Ledger has non-negative available and
held funds (each command — successful or not — preserves the invariant, so
it holds after every prefix of the sequence as well). -/
theorem balances_nonneg_after_run (cmds : List Command) (c : ClientIdType) (b : Balance)
    (h : (run cmds St.empty).balances c = some b) :
    0 ≤ b.avail ∧ 0 ≤ b.held :=
  run_preserves_nonneg cmds St.empty (fun c0 b0 h0 => by simp [St.empty] at h0) c b h

/-- Claim C4 witness: after a single deposit of 1000 by client 1, that
client's balance is (1000, 0) and is non-negative. -/
theorem balances_nonneg_after_run_witness :
    (run [⟨DEPOSIT, 1, 1, some ⟨1000, 0⟩⟩] St.empty).balances 1 =
      some ⟨1000, 0, false⟩ ∧
    (0 ≤ (Balance.mk 1000 0 false).avail ∧ 0 ≤ (Balance.mk 1000 0 false).held) :=
  ⟨by norm_num [run, do_cmd, check_tx, resolve_amount, check_amount, apply_balance,
      commit_history, to_decimal, DecLit.value, Balance.deposit, bail_if_locked,
      Balance.new, ZERO_AMOUNT, St.empty, update],
   balances_nonneg_after_run [⟨DEPOSIT, 1, 1, some ⟨1000, 0⟩⟩] 1 ⟨1000, 0, false⟩
     (by norm_num [run, do_cmd, check_tx, resolve_amount, check_amount, apply_balance,
       commit_history, to_decimal, DecLit.value, Balance.deposit, bail_if_locked,
       Balance.new, ZERO_AMOUNT, St.empty, update])⟩

/-- Claim C10 counterexample: invoked with zero positional arguments (argv
holds only the program name) the run is not handled gracefully — the
`args.len() > 2` guard passes and the producer task indexes `args[1]`, which
is out of bounds: the process panics instead of being handled. -/
theorem cli_zero_args_panics :
    main_args ["target/release/ithaca"] = .panicIndexOutOfBounds := by
  simp [main_args]

/-- Claim C10 (amended): more than one positional argument (argv length > 2)
prints the usage message and exits with the non-zero status -1 without
processing anything; exactly one positional argument proceeds to open that
path; zero positional arguments panics indexing `args[1]`. -/
theorem cli_argument_handling (args : List String) :
    (args.length > 2 → main_args args = .usageExit ∧ USAGE_EXIT_CODE ≠ 0) ∧
    (args.length ≤ 2 → ∀ p, args[1]? = some p → main_args args = .openInput p) ∧
    (args.length ≤ 1 → main_args args = .panicIndexOutOfBounds) := by
  refine ⟨?_, ?_, ?_⟩
  · intro hlen
    constructor
    · simp [main_args, hlen]
    · simp [USAGE_EXIT_CODE]
  · intro hlen p hp
    simp [main_args, Nat.not_lt.mpr hlen, hp]
  · intro hlen
    have h2 : ¬ args.length > 2 := by omega
    have hp : args[1]? = none := List.getElem?_eq_none (by omega)
    simp [main_args, h2, hp]

/-- Claim C10 (amended) witness: with two positional arguments the usage
message is printed and the exit status is non-zero. -/
theorem cli_argument_handling_witness :
    (["prog", "a", "b"] : List String).length > 2 ∧
    (main_args ["prog", "a", "b"] = .usageExit ∧ USAGE_EXIT_CODE ≠ 0) :=
  ⟨by decide, (cli_argument_handling ["prog", "a", "b"]).1 (by decide)⟩

end Ithaca
